import Mathlib

/-!
Verification of the overlay lifecycle and live-position synchronization model
of the RTSP livestream overlay application.

The development shallowly embeds the two React components found in
`src/frontend/src/OverlayManager.js` (the `OverlayManager` editor component and
the `App` component that owns the stream session, the polling loop and the
authoritative local overlay list).  Network calls are represented explicitly:
each embedded operation takes the outcome of its awaited HTTP call as an
`Except` argument and returns, besides the successor component state, the list
of HTTP requests it issued and the list of user-visible UI effects it produced.
-/

/-! ## JavaScript string and number primitives used by the components -/

/-- Characters treated as whitespace by JavaScript's `String.prototype.trim`:
tab, LF, VT, FF, CR, BOM, the line and paragraph separators, and every
Unicode Space_Separator code point (space, NBSP, U+1680, U+2000-U+200A,
U+202F, U+205F, U+3000). -/
def isJsWhitespace (c : Char) : Bool :=
  c.toNat = 9 || c.toNat = 10 || c.toNat = 11 || c.toNat = 12 || c.toNat = 13 ||
  c.toNat = 32 || c.toNat = 160 || c.toNat = 0x1680 ||
  (0x2000 ≤ c.toNat && c.toNat ≤ 0x200a) ||
  c.toNat = 0x202f || c.toNat = 0x205f || c.toNat = 0x3000 ||
  c.toNat = 0xfeff || c.toNat = 0x2028 || c.toNat = 0x2029

/-- Strip leading and trailing whitespace characters from a character list. -/
def trimChars (l : List Char) : List Char :=
  ((l.dropWhile isJsWhitespace).reverse.dropWhile isJsWhitespace).reverse

/-- JavaScript `String.prototype.trim`. -/
def jsTrim (s : String) : String :=
  String.mk (trimChars s.data)

/-- JavaScript `Math.round`: round half towards positive infinity. -/
def jsRound (q : ℚ) : ℤ :=
  ⌊q + 1 / 2⌋

/-! ## Data model

An overlay record as stored by the backend and exchanged over the CRUD
surface (`{_id, type, content, stream_id, x, y, width, height}`). -/

structure Overlay where
  _id : String
  type : String
  content : String
  stream_id : String
  x : ℤ
  y : ℤ
  width : ℤ
  height : ℤ
deriving DecidableEq, Repr

/-- Body of a `POST /api/overlays` request, as assembled by
`OverlayManager.create` (OverlayManager.js lines 17-25). -/
structure CreateBody where
  type : String
  content : String
  stream_id : String
  x : ℤ
  y : ℤ
  width : ℤ
  height : ℤ
deriving DecidableEq, Repr

/-- Body of a `PUT /api/overlays/:id` request: any subset of
`{content, x, y, width, height}`; absent fields are `none`. -/
structure UpdateBody where
  content : Option String := none
  x : Option ℤ := none
  y : Option ℤ := none
  width : Option ℤ := none
  height : Option ℤ := none
deriving DecidableEq, Repr

/-- The HTTP requests the two components can issue. -/
inductive Request where
  | postOverlay (body : CreateBody)
  | putOverlay (id : String) (body : UpdateBody)
  | deleteOverlay (id : String)
  | getOverlays (stream_id : String)
  | postStreamStop (stream_id : String)
deriving DecidableEq, Repr

/-- Whether a request is a `DELETE /api/overlays/:id`. -/
def Request.isDeleteOverlay : Request → Bool
  | .deleteOverlay _ => true
  | _ => false

/-- Whether a request is a `GET /api/overlays?stream_id=...`. -/
def Request.isGetOverlays : Request → Bool
  | .getOverlays _ => true
  | _ => false

/-- User-visible UI effects: a blocking `alert(msg)` dialog, or a line written
to the developer console via `console.error` (not user-facing). -/
inductive UiEffect where
  | alert (msg : String)
  | consoleError
deriving DecidableEq, Repr

/-- Whether a UI effect is an `alert` dialog. -/
def UiEffect.isAlert : UiEffect → Bool
  | .alert _ => true
  | .consoleError => false

/-! ## The OverlayManager component (OverlayManager.js lines 5-195)

Component state: the `type` and `content` form fields and the in-place
content-editing state (`editingId`, `editContent`). -/

structure OMState where
  type : String
  content : String
  editingId : Option String
  editContent : String
deriving DecidableEq, Repr

/-- Outcome of running one (async) handler of the component: the successor
component state, the HTTP requests issued, the UI effects produced, and
whether `refresh()` (the `App.fetchOverlays` callback) was invoked. -/
structure StepResult where
  state : OMState
  requests : List Request
  effects : List UiEffect
  refreshed : Bool
deriving DecidableEq, Repr

/-- `OverlayManager.create` (lines 11-32).  Rejects whitespace-only content
with an alert; otherwise posts the trimmed content with fixed geometry
`x=50, y=50` and `width/height` of `200x60` for text, `150x100` for image.
On success it clears the content field and refreshes; on failure it logs and
alerts, leaving the state as is. -/
def create (st : OMState) (streamId : String) (result : Except String Unit) : StepResult :=
  if jsTrim st.content = "" then
    ⟨st, [], [UiEffect.alert "Please enter content for the overlay"], false⟩
  else
    let body : CreateBody :=
      { type := st.type
        content := jsTrim st.content
        stream_id := streamId
        x := 50
        y := 50
        width := if st.type = "text" then 200 else 150
        height := if st.type = "text" then 60 else 100 }
    match result with
    | Except.ok _ => ⟨{ st with content := "" }, [Request.postOverlay body], [], true⟩
    | Except.error _ =>
        ⟨st, [Request.postOverlay body],
          [UiEffect.consoleError, UiEffect.alert "Failed to create overlay"], false⟩

/-- `OverlayManager.remove` (lines 34-42).  Guarded by a `window.confirm`
dialog (the `confirmed` argument); on failure only `console.error` runs. -/
def remove (st : OMState) (id : String) (confirmed : Bool)
    (result : Except String Unit) : StepResult :=
  if !confirmed then ⟨st, [], [], false⟩
  else
    match result with
    | Except.ok _ => ⟨st, [Request.deleteOverlay id], [], true⟩
    | Except.error _ => ⟨st, [Request.deleteOverlay id], [UiEffect.consoleError], false⟩

/-- `OverlayManager.updatePos` (lines 44-51).  Issues one PUT with the given
partial fields; on success refreshes, on failure only `console.error` runs. -/
def updatePos (st : OMState) (id : String) (data : UpdateBody)
    (result : Except String Unit) : StepResult :=
  match result with
  | Except.ok _ => ⟨st, [Request.putOverlay id data], [], true⟩
  | Except.error _ => ⟨st, [Request.putOverlay id data], [UiEffect.consoleError], false⟩

/-- `OverlayManager.saveEdit` (lines 53-63).  Returns silently when the edit
buffer trims to empty; otherwise issues one PUT carrying the trimmed buffer,
and only on success leaves Editing (clearing `editingId`/`editContent`) and
refreshes. -/
def saveEdit (st : OMState) (id : String) (result : Except String Unit) : StepResult :=
  if jsTrim st.editContent = "" then ⟨st, [], [], false⟩
  else
    let body : UpdateBody := { content := some (jsTrim st.editContent) }
    match result with
    | Except.ok _ =>
        ⟨{ st with editingId := none, editContent := "" },
          [Request.putOverlay id body], [], true⟩
    | Except.error _ => ⟨st, [Request.putOverlay id body], [UiEffect.consoleError], false⟩

/-- `OverlayManager.startEdit` (lines 65-68): enter Editing for the overlay,
capturing its current content into the local edit buffer. -/
def startEdit (st : OMState) (o : Overlay) : OMState :=
  { st with editingId := some o._id, editContent := o.content }

/-- The Cancel button of the editing row (line 150):
`setEditingId(null); setEditContent('')` and nothing else. -/
def cancelEdit (st : OMState) : StepResult :=
  ⟨{ st with editingId := none, editContent := "" }, [], [], false⟩

/-! ## Rnd gesture handlers (OverlayManager.js lines 163-176)

The `Rnd` element is configured with `minWidth={50}`, `minHeight={30}` and
`bounds="parent"`, and attaches only end-of-gesture callbacks: `onDragStop`
and `onResizeStop`.  No `onDrag` or `onResize` per-frame callback is given. -/

/-- The `minWidth={50}` prop of the `Rnd` element (line 166). -/
def rndMinWidth : ℤ := 50

/-- The `minHeight={30}` prop of the `Rnd` element (line 167). -/
def rndMinHeight : ℤ := 30

/-- The `onDragStop` callback (line 169): exactly one
`updatePos(o._id, {x: Math.round(d.x), y: Math.round(d.y)})` call with the
gesture's final position `d`. -/
def onDragStop (st : OMState) (o_id : String) (dx dy : ℚ)
    (result : Except String Unit) : StepResult :=
  updatePos st o_id { x := some (jsRound dx), y := some (jsRound dy) } result

/-- The `onResizeStop` callback (lines 170-175): exactly one
`updatePos(o._id, {width, height, x, y})` call where `width`/`height` are the
integer pixel sizes parsed from the element's final CSS size
(`parseInt(ref.style.width)` / `parseInt(ref.style.height)`) and `x`/`y` the
rounded final position. -/
def onResizeStop (st : OMState) (o_id : String) (refWidth refHeight : ℤ)
    (px py : ℚ) (result : Except String Unit) : StepResult :=
  updatePos st o_id
    { width := some refWidth
      height := some refHeight
      x := some (jsRound px)
      y := some (jsRound py) } result

/-- No `onDrag` callback is attached to the `Rnd` element, so a per-frame
drag movement runs no handler: no request, no effect, no refresh. -/
def onDragFrame (st : OMState) : StepResult :=
  ⟨st, [], [], false⟩

/-- No `onResize` callback is attached to the `Rnd` element, so a per-frame
resize movement runs no handler: no request, no effect, no refresh. -/
def onResizeFrame (st : OMState) : StepResult :=
  ⟨st, [], [], false⟩

/-- Rectangle geometry (position of the top-left corner and pixel size). -/
structure Geom where
  x : ℤ
  y : ℤ
  width : ℤ
  height : ℤ
deriving DecidableEq, Repr

/-- Clamp `v` into the interval `[lo, hi]` (assuming `lo ≤ hi`). -/
def clampInt (lo hi v : ℤ) : ℤ :=
  max lo (min hi v)

/-- Modelled from the spec: the clamping performed by the external `react-rnd`
library (not part of this repository) under the props set on the `Rnd`
element at OverlayManager.js lines 163-176 — `minWidth={50}`, `minHeight={30}`
and `bounds="parent"`.  The spec describes it as: drag/resize must keep the
overlay within the parent canvas's bounds and respect the minimum size, the
editor clamping locally before issuing the update.  `pw`/`ph` are the parent
canvas's pixel dimensions; the size is clamped into `[min, parent]` and the
position into the range keeping the element inside the parent. -/
def rndClamp (pw ph : ℤ) (g : Geom) : Geom :=
  let w := clampInt rndMinWidth pw g.width
  let h := clampInt rndMinHeight ph g.height
  { x := clampInt 0 (pw - w) g.x
    y := clampInt 0 (ph - h) g.y
    width := w
    height := h }

/-! ## The App component (second document of OverlayManager.js, lines 203-379)

State: the active stream session (`streamInfo`, reduced to its `stream_id`)
and the authoritative local overlay list (`overlays`). -/

structure AppState where
  streamInfo : Option String
  overlays : List Overlay
deriving DecidableEq, Repr

/-- `App.fetchOverlays` (lines 291-299).  Returns without any request when no
session is open; otherwise issues one `GET /api/overlays?stream_id=...` and,
on success, replaces the whole local overlay list with the response data; on
failure only `console.error` runs and the state is untouched. -/
def fetchOverlays (st : AppState) (result : Except String (List Overlay)) :
    AppState × List Request :=
  match st.streamInfo with
  | none => (st, [])
  | some sid =>
      match result with
      | Except.ok data => ({ st with overlays := data }, [Request.getOverlays sid])
      | Except.error _ => (st, [Request.getOverlays sid])

/-- `App.stopStream` (lines 280-289).  Returns without any request when no
session is open; otherwise issues one `POST /api/stream/:id/stop` and, once it
succeeds, clears the session (`setStreamInfo(null)`) and empties the local
overlay list (`setOverlays([])`); on failure only `console.error` runs. -/
def stopStream (st : AppState) (result : Except String Unit) :
    AppState × List Request :=
  match st.streamInfo with
  | none => (st, [])
  | some sid =>
      match result with
      | Except.ok _ => (⟨none, []⟩, [Request.postStreamStop sid])
      | Except.error _ => (st, [Request.postStreamStop sid])

/-! ## The polling synchronizer (lines 215-221)

`useEffect(() => { if (streamInfo) { fetchOverlays(); const interval =
setInterval(fetchOverlays, 2000); return () => clearInterval(interval); } },
[streamInfo])` — modelled as a transition system over the effect's interval
state.  The events are the reruns of the effect on a `streamInfo` dependency
change (session start/stop), the firing of the scheduled interval, and the
unmount of the component (which runs the effect cleanup). -/

/-- The fixed polling period passed to `setInterval` (line 218), in
milliseconds. -/
def pollIntervalMs : ℕ := 2000

/-- Interval state owned by the polling effect: `some p` when an interval
with period `p` ms is scheduled, `none` after `clearInterval` (or before any
session started). -/
structure PollState where
  intervalMs : Option ℕ
deriving DecidableEq, Repr

/-- Events driving the polling effect. -/
inductive PollEvent where
  | streamChanged (streamOpen : Bool)
  | tick
  | unmount
deriving DecidableEq, Repr

/-- Observable actions of the polling effect: a call to `fetchOverlays`. -/
inductive PollAction where
  | fetchOverlays
deriving DecidableEq, Repr

/-- One step of the polling effect.  When `streamInfo` changes, React first
runs the previous effect's cleanup (`clearInterval`) and then the effect body,
which — only if a session is open — fetches immediately and schedules a
2000 ms interval.  A tick of a scheduled interval runs `fetchOverlays`; after
`clearInterval` no tick fires.  Unmounting runs the cleanup. -/
def pollStep (st : PollState) (e : PollEvent) : PollState × List PollAction :=
  match e with
  | .streamChanged true => (⟨some pollIntervalMs⟩, [.fetchOverlays])
  | .streamChanged false => (⟨none⟩, [])
  | .tick => (st, if st.intervalMs.isSome then [.fetchOverlays] else [])
  | .unmount => (⟨none⟩, [])

/-- Run the polling effect over a list of events, collecting the actions. -/
def pollRun (st : PollState) : List PollEvent → List PollAction
  | [] => []
  | e :: es => (pollStep st e).2 ++ pollRun (pollStep st e).1 es

/-! ## The backend overlay service (not present under src/)

Modelled from the spec: the Overlay Service's `create` stores the supplied
fields and returns the created record including the server-assigned `id`
("applies default geometry ... when unspecified; returns the created record
including server-assigned `id`" — the client here always supplies the
geometry, so the stored record carries the supplied values verbatim). -/
def serviceCreate (body : CreateBody) (newId : String) : Overlay :=
  { _id := newId
    type := body.type
    content := body.content
    stream_id := body.stream_id
    x := body.x
    y := body.y
    width := body.width
    height := body.height }

/-! ## Helper lemmas -/

theorem trimChars_eq_nil_iff (l : List Char) :
    trimChars l = [] ↔ ∀ c ∈ l, isJsWhitespace c := by
  unfold trimChars
  rw [List.reverse_eq_nil_iff, List.dropWhile_eq_nil_iff]
  constructor
  · intro h c hc
    have hsplit := List.takeWhile_append_dropWhile isJsWhitespace l
    rw [← hsplit] at hc
    rcases List.mem_append.mp hc with h1 | h2
    · exact List.mem_takeWhile_imp h1
    · exact h c (List.mem_reverse.mpr h2)
  · intro h c hc
    exact h c ((List.dropWhile_sublist isJsWhitespace).subset (List.mem_reverse.mp hc))

theorem jsTrim_eq_empty_iff (s : String) :
    jsTrim s = "" ↔ s.data.all isJsWhitespace = true := by
  rw [String.ext_iff]
  show trimChars s.data = [] ↔ s.data.all isJsWhitespace = true
  rw [trimChars_eq_nil_iff, List.all_eq_true]

theorem jsRound_intCast (n : ℤ) : jsRound (n : ℚ) = n := by
  unfold jsRound
  rw [Int.floor_eq_iff]
  constructor
  · linarith
  · linarith

/-! ## Claims -/

/-- C1: a create issued with no geometry supplied by the user (the form never
supplies any) posts default geometry `x=50, y=50` and, for a text overlay,
`width=200, height=60`; for an image overlay `width=150, height=100`; the
record created by the service from that request carries those defaults and
the requested kind. -/
theorem create_applies_default_geometry (st : OMState) (streamId newId : String)
    (result : Except String Unit) (h : jsTrim st.content ≠ "") :
    ∃ b, (create st streamId result).requests = [Request.postOverlay b] ∧
      (serviceCreate b newId).x = 50 ∧ (serviceCreate b newId).y = 50 ∧
      (serviceCreate b newId).type = st.type ∧
      (st.type = "text" →
        (serviceCreate b newId).width = 200 ∧ (serviceCreate b newId).height = 60) ∧
      (st.type = "image" →
        (serviceCreate b newId).width = 150 ∧ (serviceCreate b newId).height = 100) := by
  unfold create serviceCreate
  rw [if_neg h]
  cases result with
  | ok u =>
      refine ⟨_, rfl, rfl, rfl, rfl, ?_, ?_⟩
      · intro ht
        simp only [ht]
        exact ⟨rfl, rfl⟩
      · intro hi
        rw [hi]
        exact ⟨rfl, rfl⟩
  | error e =>
      refine ⟨_, rfl, rfl, rfl, rfl, ?_, ?_⟩
      · intro ht
        simp only [ht]
        exact ⟨rfl, rfl⟩
      · intro hi
        rw [hi]
        exact ⟨rfl, rfl⟩

theorem create_applies_default_geometry_witness :
    ∃ b, (create ⟨"text", "LIVE", none, ""⟩ "default" (Except.ok ())).requests =
        [Request.postOverlay b] ∧
      (serviceCreate b "id1").x = 50 ∧ (serviceCreate b "id1").y = 50 ∧
      (serviceCreate b "id1").type = "text" ∧
      ("text" = "text" →
        (serviceCreate b "id1").width = 200 ∧ (serviceCreate b "id1").height = 60) ∧
      ("text" = "image" →
        (serviceCreate b "id1").width = 150 ∧ (serviceCreate b "id1").height = 100) :=
  create_applies_default_geometry ⟨"text", "LIVE", none, ""⟩ "default" "id1"
    (Except.ok ()) (by decide)

/-- C2: creation requires non-empty content — a content field that is empty or
whitespace-only issues no create request, while a field with non-empty trimmed
content issues exactly one create request. -/
theorem create_requires_nonempty_content (st : OMState) (streamId : String)
    (result : Except String Unit) :
    (st.content.data.all isJsWhitespace = true →
      (create st streamId result).requests = []) ∧
    (st.content.data.all isJsWhitespace = false →
      (create st streamId result).requests.length = 1) := by
  constructor
  · intro h
    unfold create
    rw [if_pos ((jsTrim_eq_empty_iff st.content).mpr h)]
  · intro h
    unfold create
    rw [if_neg fun hc => by rw [(jsTrim_eq_empty_iff st.content).mp hc] at h; cases h]
    cases result with
    | ok u => rfl
    | error e => rfl

theorem create_requires_nonempty_content_witness :
    (create ⟨"text", " ", none, ""⟩ "default" (Except.ok ())).requests = [] ∧
    (create ⟨"text", "LIVE", none, ""⟩ "default" (Except.ok ())).requests.length = 1 :=
  ⟨(create_requires_nonempty_content ⟨"text", " ", none, ""⟩ "default"
      (Except.ok ())).1 (by decide),
   (create_requires_nonempty_content ⟨"text", "LIVE", none, ""⟩ "default"
      (Except.ok ())).2 (by decide)⟩

/-- C3: while a session is open the polling effect fetches immediately on
session start and schedules a fixed 2000 ms interval (a few seconds); each
tick of the scheduled interval fetches again; tearing the session down
(stream stopped or component unmounted) clears the interval, and from the
torn-down state no sequence of timer ticks produces any further fetch. -/
theorem polling_lifecycle (st : PollState) :
    pollStep st (PollEvent.streamChanged true) =
      (⟨some pollIntervalMs⟩, [PollAction.fetchOverlays]) ∧
    pollIntervalMs = 2000 ∧
    (st.intervalMs = some pollIntervalMs →
      pollStep st PollEvent.tick = (st, [PollAction.fetchOverlays])) ∧
    (pollStep st (PollEvent.streamChanged false)).1.intervalMs = none ∧
    (pollStep st PollEvent.unmount).1.intervalMs = none ∧
    (∀ es : List PollEvent, (∀ e ∈ es, e = PollEvent.tick) →
      pollRun ⟨none⟩ es = []) := by
  refine ⟨rfl, rfl, ?_, rfl, rfl, ?_⟩
  · intro h
    simp [pollStep, h]
  · intro es
    induction es with
    | nil => intro h; rfl
    | cons e es ih =>
        intro h
        have he := h e (List.mem_cons_self e es)
        subst he
        have ih' := ih fun e' he' => h e' (List.mem_cons_of_mem _ he')
        simp [pollRun, pollStep, ih']

theorem polling_lifecycle_witness :
    pollStep ⟨some 2000⟩ PollEvent.tick = (⟨some 2000⟩, [PollAction.fetchOverlays]) ∧
    pollRun ⟨none⟩ [PollEvent.tick, PollEvent.tick] = [] :=
  ⟨(polling_lifecycle ⟨some 2000⟩).2.2.1 rfl,
   (polling_lifecycle ⟨some 2000⟩).2.2.2.2.2 [PollEvent.tick, PollEvent.tick] (by decide)⟩

/-- C4: a successful poll fetch replaces the client's entire local overlay
list for the active stream with the fetched array, independently of the
previous local list. -/
theorem fetch_replaces_overlays (st : AppState) (sid : String) (data : List Overlay)
    (h : st.streamInfo = some sid) :
    (fetchOverlays st (Except.ok data)).1.overlays = data := by
  unfold fetchOverlays
  rw [h]

theorem fetch_replaces_overlays_witness :
    (fetchOverlays ⟨some "s", [⟨"a", "text", "old", "s", 1, 2, 200, 60⟩]⟩
      (Except.ok [⟨"b", "image", "http", "s", 50, 50, 150, 100⟩])).1.overlays =
      [⟨"b", "image", "http", "s", 50, 50, 150, 100⟩] :=
  fetch_replaces_overlays ⟨some "s", [⟨"a", "text", "old", "s", 1, 2, 200, 60⟩]⟩
    "s" [⟨"b", "image", "http", "s", 50, 50, 150, 100⟩] rfl

/-- C5: a failed poll fetch leaves the whole local state unchanged, and the
poll issues at most the single scheduled GET — every request it made is a
list fetch, so no retry is issued before the next scheduled tick. -/
theorem fetch_failure_leaves_state (st : AppState) (e : String) :
    (fetchOverlays st (Except.error e)).1 = st ∧
    (fetchOverlays st (Except.error e)).2.length ≤ 1 ∧
    (fetchOverlays st (Except.error e)).2.all Request.isGetOverlays = true := by
  unfold fetchOverlays
  cases hs : st.streamInfo with
  | none => exact ⟨rfl, by simp, rfl⟩
  | some sid => exact ⟨rfl, by simp, rfl⟩

/-- C6: pointer-up of a drag issues exactly one update call carrying the
final position (fields x and y only); pointer-up of a resize issues exactly
one update call carrying the final geometry (width, height, x, y); and
per-frame movement during a gesture runs no handler, so no persistence call
is issued per-frame. -/
theorem gesture_end_persists_once (st : OMState) (o_id : String)
    (dx dy px py : ℚ) (w h : ℤ) (result : Except String Unit) :
    (onDragStop st o_id dx dy result).requests =
      [Request.putOverlay o_id { x := some (jsRound dx), y := some (jsRound dy) }] ∧
    (onResizeStop st o_id w h px py result).requests =
      [Request.putOverlay o_id
        { width := some w, height := some h,
          x := some (jsRound px), y := some (jsRound py) }] ∧
    (onDragFrame st).requests = [] ∧ (onResizeFrame st).requests = [] := by
  cases result with
  | ok u => exact ⟨rfl, rfl, rfl, rfl⟩
  | error e => exact ⟨rfl, rfl, rfl, rfl⟩

/-- C7: the editor clamps locally before issuing a geometry update — with a
parent canvas at least as large as the configured minimum size, the clamped
geometry stays within the parent bounds and satisfies the minimum width 50
and minimum height 30 (both within the 30-50 px range), and the resize-stop
update carries exactly the clamped values, so no editor-issued update has a
width or height below the minimum. -/
theorem editor_clamps_before_update (pw ph : ℤ) (g : Geom) (st : OMState)
    (o_id : String) (result : Except String Unit)
    (hw : rndMinWidth ≤ pw) (hh : rndMinHeight ≤ ph) :
    rndMinWidth ≤ (rndClamp pw ph g).width ∧
    rndMinHeight ≤ (rndClamp pw ph g).height ∧
    0 ≤ (rndClamp pw ph g).x ∧
    (rndClamp pw ph g).x + (rndClamp pw ph g).width ≤ pw ∧
    0 ≤ (rndClamp pw ph g).y ∧
    (rndClamp pw ph g).y + (rndClamp pw ph g).height ≤ ph ∧
    30 ≤ rndMinWidth ∧ rndMinWidth ≤ 50 ∧ 30 ≤ rndMinHeight ∧ rndMinHeight ≤ 50 ∧
    (onResizeStop st o_id (rndClamp pw ph g).width (rndClamp pw ph g).height
        ((rndClamp pw ph g).x : ℚ) ((rndClamp pw ph g).y : ℚ) result).requests =
      [Request.putOverlay o_id
        { width := some (rndClamp pw ph g).width
          height := some (rndClamp pw ph g).height
          x := some (rndClamp pw ph g).x
          y := some (rndClamp pw ph g).y }] := by
  refine ⟨?_, ?_, ?_, ?_, ?_, ?_, by decide, by decide, by decide, by decide, ?_⟩
  · simp only [rndClamp, clampInt, rndMinWidth, rndMinHeight] at *
    omega
  · simp only [rndClamp, clampInt, rndMinWidth, rndMinHeight] at *
    omega
  · simp only [rndClamp, clampInt, rndMinWidth, rndMinHeight] at *
    omega
  · simp only [rndClamp, clampInt, rndMinWidth, rndMinHeight] at *
    omega
  · simp only [rndClamp, clampInt, rndMinWidth, rndMinHeight] at *
    omega
  · simp only [rndClamp, clampInt, rndMinWidth, rndMinHeight] at *
    omega
  · cases result with
    | ok u => simp [onResizeStop, updatePos, jsRound_intCast]
    | error e => simp [onResizeStop, updatePos, jsRound_intCast]

theorem editor_clamps_before_update_witness :
    rndMinWidth ≤ (rndClamp 300 200 ⟨-10, 999, 10, 500⟩).width ∧
    rndMinHeight ≤ (rndClamp 300 200 ⟨-10, 999, 10, 500⟩).height ∧
    0 ≤ (rndClamp 300 200 ⟨-10, 999, 10, 500⟩).x ∧
    (rndClamp 300 200 ⟨-10, 999, 10, 500⟩).x +
      (rndClamp 300 200 ⟨-10, 999, 10, 500⟩).width ≤ 300 :=
  ⟨(editor_clamps_before_update 300 200 ⟨-10, 999, 10, 500⟩ ⟨"text", "", none, ""⟩
      "i" (Except.ok ()) (by decide) (by decide)).1,
   (editor_clamps_before_update 300 200 ⟨-10, 999, 10, 500⟩ ⟨"text", "", none, ""⟩
      "i" (Except.ok ()) (by decide) (by decide)).2.1,
   (editor_clamps_before_update 300 200 ⟨-10, 999, 10, 500⟩ ⟨"text", "", none, ""⟩
      "i" (Except.ok ()) (by decide) (by decide)).2.2.1,
   (editor_clamps_before_update 300 200 ⟨-10, 999, 10, 500⟩ ⟨"text", "", none, ""⟩
      "i" (Except.ok ()) (by decide) (by decide)).2.2.2.1⟩

/-- C8 counterexample: confirming an edit whose local buffer is a single
space issues no update call at all (the claim requires exactly one). -/
theorem saveEdit_whitespace_issues_no_call :
    (saveEdit ⟨"text", "", some "a", " "⟩ "a" (Except.ok ())).requests.length = 0 := by
  decide

/-- C8 (amended): entering Editing captures the overlay's current content
into the local buffer; confirming with a buffer that is non-empty after
trimming issues exactly one `update(id, {content})` call carrying the
trimmed buffer and leaves Editing on success; confirming with an empty or
whitespace-only buffer issues no call; canceling discards the buffer and
issues no network call. -/
theorem edit_cycle (st : OMState) (o : Overlay) (id : String)
    (result : Except String Unit) :
    (startEdit st o).editingId = some o._id ∧
    (startEdit st o).editContent = o.content ∧
    (jsTrim st.editContent ≠ "" →
      (saveEdit st id result).requests =
        [Request.putOverlay id { content := some (jsTrim st.editContent) }] ∧
      (saveEdit st id (Except.ok ())).state.editingId = none) ∧
    (jsTrim st.editContent = "" → (saveEdit st id result).requests = []) ∧
    (cancelEdit st).requests = [] ∧
    (cancelEdit st).state.editContent = "" ∧
    (cancelEdit st).effects = [] := by
  refine ⟨rfl, rfl, ?_, ?_, rfl, rfl, rfl⟩
  · intro h
    unfold saveEdit
    rw [if_neg h, if_neg h]
    cases result with
    | ok u => exact ⟨rfl, rfl⟩
    | error e => exact ⟨rfl, rfl⟩
  · intro h
    unfold saveEdit
    rw [if_pos h]

theorem edit_cycle_witness :
    (saveEdit ⟨"text", "", some "a", " LIVE "⟩ "a" (Except.ok ())).requests =
      [Request.putOverlay "a" { content := some (jsTrim " LIVE ") }] ∧
    (saveEdit ⟨"text", "", some "a", " LIVE "⟩ "a" (Except.ok ())).state.editingId = none :=
  (edit_cycle ⟨"text", "", some "a", " LIVE "⟩
    ⟨"a", "text", "LIVE", "s", 50, 50, 200, 60⟩ "a" (Except.ok ())).2.2.1 (by decide)

/-- C9 counterexample: a failed position update surfaces no alert to the
user — its only effect is a `console.error` line. -/
theorem failed_update_shows_no_alert :
    ((updatePos ⟨"text", "", none, ""⟩ "a" { x := some 1 }
      (Except.error "network")).effects.any UiEffect.isAlert) = false := by
  decide

/-- C9 (amended): every failed update, create, or delete leaves the local
state as applied — no rollback, and the refresh that would re-sync with the
server is skipped, leaving correction to the next poll cycle; a failed
create is surfaced to the user as an alert, while failed update and delete
calls are only logged to the console and surface no alert. -/
theorem failure_handling (st : OMState) (streamId id : String)
    (data : UpdateBody) (e : String) (hc : jsTrim st.content ≠ "") :
    (create st streamId (Except.error e)).state = st ∧
    (create st streamId (Except.error e)).refreshed = false ∧
    ((create st streamId (Except.error e)).effects.any UiEffect.isAlert) = true ∧
    (updatePos st id data (Except.error e)).state = st ∧
    (updatePos st id data (Except.error e)).refreshed = false ∧
    (updatePos st id data (Except.error e)).effects = [UiEffect.consoleError] ∧
    (remove st id true (Except.error e)).state = st ∧
    (remove st id true (Except.error e)).refreshed = false ∧
    (remove st id true (Except.error e)).effects = [UiEffect.consoleError] := by
  unfold create updatePos remove
  rw [if_neg hc]
  exact ⟨rfl, rfl, rfl, rfl, rfl, rfl, rfl, rfl, rfl⟩

theorem failure_handling_witness :
    ((create ⟨"text", "LIVE", none, ""⟩ "s" (Except.error "network")).effects.any
      UiEffect.isAlert) = true ∧
    (updatePos ⟨"text", "LIVE", none, ""⟩ "a" { x := some 1 }
      (Except.error "network")).effects = [UiEffect.consoleError] ∧
    (remove ⟨"text", "LIVE", none, ""⟩ "a" true
      (Except.error "network")).effects = [UiEffect.consoleError] :=
  ⟨(failure_handling ⟨"text", "LIVE", none, ""⟩ "s" "a" { x := some 1 }
      "network" (by decide)).2.2.1,
   (failure_handling ⟨"text", "LIVE", none, ""⟩ "s" "a" { x := some 1 }
      "network" (by decide)).2.2.2.2.2.1,
   (failure_handling ⟨"text", "LIVE", none, ""⟩ "s" "a" { x := some 1 }
      "network" (by decide)).2.2.2.2.2.2.2.2⟩

/-- C10: stopping the active stream clears the session state and empties the
local overlay list once the stop call returns, while issuing only the
stream-stop request — never an overlay delete — so the server-side overlay
records for the stream are left unchanged while the local view becomes
empty. -/
theorem stop_stream_clears_local_only (st : AppState) (sid : String)
    (result : Except String Unit) (h : st.streamInfo = some sid) :
    (stopStream st (Except.ok ())).1.overlays = [] ∧
    (stopStream st (Except.ok ())).1.streamInfo = none ∧
    (stopStream st result).2 = [Request.postStreamStop sid] ∧
    ((stopStream st result).2.all fun r => !r.isDeleteOverlay) = true := by
  unfold stopStream
  rw [h]
  cases result with
  | ok u => exact ⟨rfl, rfl, rfl, rfl⟩
  | error e => exact ⟨rfl, rfl, rfl, rfl⟩

theorem stop_stream_clears_local_only_witness :
    (stopStream ⟨some "s", [⟨"a", "text", "LIVE", "s", 50, 50, 200, 60⟩]⟩
      (Except.ok ())).1.overlays = [] ∧
    (stopStream ⟨some "s", [⟨"a", "text", "LIVE", "s", 50, 50, 200, 60⟩]⟩
      (Except.ok ())).1.streamInfo = none ∧
    (stopStream ⟨some "s", [⟨"a", "text", "LIVE", "s", 50, 50, 200, 60⟩]⟩
      (Except.ok ())).2 = [Request.postStreamStop "s"] ∧
    ((stopStream ⟨some "s", [⟨"a", "text", "LIVE", "s", 50, 50, 200, 60⟩]⟩
      (Except.ok ())).2.all fun r => !r.isDeleteOverlay) = true :=
  stop_stream_clears_local_only ⟨some "s", [⟨"a", "text", "LIVE", "s", 50, 50, 200, 60⟩]⟩
    "s" (Except.ok ()) rfl
